import Mathlib

/- Verification of the playlist orchestrator (norskvideo/playlist) against its
   specification.  The definitions below are a shallow embedding of the
   TypeScript source in src/unnamed/part_000 (the `Playlist` controller, its
   source factory `createNode`, the listener registry, and the stream-key
   selector helpers).  Engine behaviour (the norsk SDK) is modelled only
   through the data it feeds back to the controller. -/

set_option linter.unusedVariables false

/-- Media type carried by a stream descriptor.  Models the norsk-sdk
`StreamMetadata` discriminant consumed by `audioStreamKeys` and
`videoStreamKeys`. -/
inductive MediaKind
  | audio
  | video
  | other
deriving DecidableEq, Repr

/-- Engine stream key: `(programNumber, renditionName, streamId, sourceName)`. -/
structure StreamKey where
  programNumber : Nat
  renditionName : String
  streamId : Nat
  sourceName : String
deriving DecidableEq, Repr

/-- One entry of the stream-metadata list an input node publishes. -/
structure StreamMetadata where
  mediaKind : MediaKind
  streamKey : StreamKey
deriving DecidableEq, Repr

/-- SDK helper: keys of the audio streams in a metadata list (spec section 4.1:
"return the keys of streams of that media type"). -/
def audioStreamKeys (streams : List StreamMetadata) : List StreamKey :=
  (streams.filter (fun s => s.mediaKind = MediaKind.audio)).map (fun s => s.streamKey)

/-- SDK helper: keys of the video streams in a metadata list. -/
def videoStreamKeys (streams : List StreamMetadata) : List StreamKey :=
  (streams.filter (fun s => s.mediaKind = MediaKind.video)).map (fun s => s.streamKey)

/-- `type AVKind = "video" | "av"` from the source. -/
inductive AVKind
  | video
  | av
deriving DecidableEq, Repr

/-- SRT mode: `"caller" | "listener"`. -/
inductive SrtMode
  | caller
  | listener
deriving DecidableEq, Repr

/-- `PlaylistSource`, the tagged variant from the source.  Only the
configuration fields the controller logic reads are retained: the SRT mode and
port, the RTMP port/app/stream, and file names. -/
inductive PlaylistSource
  | localTsFile (fileName : String)
  | localMp4File (fileName : String)
  | srt (mode : SrtMode) (ip : String) (port : Nat)
  | rtmp (port : Nat) (app : Option String) (stream : Option String)
  | image (fileName : String)
  | rtp
  | whip
deriving DecidableEq, Repr

/-- `PlaylistItem { begin?, duration?, source }`.  Durations are integer
milliseconds (the source uses JS numbers); `beginOffset` is the source's
`begin` field, advisory and passed through to the engine unread by the
controller logic. -/
structure PlaylistItem where
  beginOffset : Option Int := none
  duration : Option Int := none
  source : PlaylistSource
deriving DecidableEq, Repr

/-- `isLive` from the source: live for srt/rtmp/rtp/whip, file-like otherwise. -/
def isLive : PlaylistSource → Bool
  | .image _ => false
  | .localMp4File _ => false
  | .localTsFile _ => false
  | .rtmp _ _ _ => true
  | .rtp => true
  | .srt _ _ _ => true
  | .whip => true

/-- `nodeKind` from the source: `"video"` for image sources, `"av"` otherwise. -/
def nodeKind : PlaylistSource → AVKind
  | .image _ => .video
  | _ => .av

/-- Result of the per-slot stream selector: the optional pin mapping it returns
to the switcher, and the `ready` bit it writes onto the slot state. -/
structure SelectorResult where
  pinMapping : Option (String × List StreamKey)
  ready : Bool
deriving DecidableEq, Repr

/-- The `sourceSelector` closure built in `Playlist.subscribeToNode`:
filters the node's streams by the item's `streamKeyFilter`, keeps at most one
audio and one video key, subscribes the pin `sourceIndex.toString()` as soon as
a single key is present, and computes the slot's `ready` flag as
`(kind == "video" || audio present) && video present`.  (The source closure
additionally stores `ready` on the slot and calls `refreshActive()`; those
effects are modelled by the `Step.ready` transition below.) -/
def sourceSelector (streamKeyFilter : StreamKey → Bool) (kind : AVKind)
    (sourceIndex : Nat) (streams : List StreamMetadata) : SelectorResult :=
  let pin := toString sourceIndex
  let audio := ((audioStreamKeys streams).filter streamKeyFilter).take 1
  let video := ((videoStreamKeys streams).filter streamKeyFilter).take 1
  let keys := audio ++ video
  let res : Option (String × List StreamKey) :=
    if keys.length ≥ 1 then some (pin, keys) else none
  let ready := (kind = AVKind.video || audio.length ≥ 1) && video.length ≥ 1
  ⟨res, ready⟩

/- ------------------------------------------------------------------ -/
/- SourceHandle teardown (`closeNode`) and the listener registry view  -/
/- ------------------------------------------------------------------ -/

/-- The world one `SourceHandle` can affect: the listener registry's
per-handle disconnect-callback map (handle ids), the number of pending
grace-delay close timers, and whether the underlying node has been torn
down. -/
structure HandleState where
  registryCallbacks : List String
  pendingCloses : Nat
  nodeClosed : Bool
deriving DecidableEq, Repr

/-- `closeNode` from the source factory: for a standalone node it schedules a
`node.close()` after a grace delay of about one second; when
`isStandaloneNode` is false (SRT-listener and RTMP handles) it does nothing at
all. -/
def closeNode (isStandaloneNode : Bool) (s : HandleState) : HandleState :=
  if isStandaloneNode then { s with pendingCloses := s.pendingCloses + 1 } else s

/-- Firing of the pending grace-delay timers: each one invokes `node.close()`,
which tears the node down; tearing down an already-closed node leaves it
closed. -/
def runCloseTimers (s : HandleState) : HandleState :=
  if s.pendingCloses ≠ 0 then { s with pendingCloses := 0, nodeClosed := true } else s

/- ------------------------------------------------------------------ -/
/- RTMP disconnect guard (claim C10)                                   -/
/- ------------------------------------------------------------------ -/

/-- JS truthiness of an optional string (`config.app && config.stream`):
`undefined` and the empty string are falsy. -/
def jsTruthyStr : Option String → Bool
  | none => false
  | some s => s ≠ ""

/-- The `sourceName` captured by the RTMP branch of `createNode`:
set to `"<app>/<stream>"` only when both `config.app` and `config.stream` are
truthy, else left `undefined`. -/
def rtmpSourceName (app stream : Option String) : Option String :=
  if jsTruthyStr app && jsTruthyStr stream then
    some (app.getD "" ++ "/" ++ stream.getD "")
  else
    none

/-- The guard of the disconnect callback the RTMP branch registers on the
shared listener: `disconnectSourceName === sourceName`.  The fan-out always
passes a string, so when the captured `sourceName` is `undefined` the strict
comparison is false and `update()` is not called. -/
def rtmpDisconnectTriggersUpdate (sourceName : Option String)
    (disconnectSourceName : String) : Bool :=
  match sourceName with
  | some n => disconnectSourceName = n
  | none => false

/- ------------------------------------------------------------------ -/
/- Playlist controller state                                           -/
/- ------------------------------------------------------------------ -/

/-- `PlayingItem` from the source.  The closures stored on the real record
(`sub`, `silenceSub`, `closeNode`) are modelled elsewhere: the subscription
selector by `sourceSelector`, teardown by `closeNode`/`HandleState`. -/
structure PlayingItem where
  item : PlaylistItem
  index : Nat
  ready : Bool
  duration : Option Int
deriving DecidableEq, Repr

/-- A pending duration timer: the playlist position it was armed for and the
raw delay argument handed to `setTimeout` (integer milliseconds, possibly
negative). -/
structure TimerInfo where
  forSource : Nat
  delay : Int
deriving DecidableEq, Repr

/-- The controller state: the `Playlist` class fields that the state-machine
logic reads and writes.  `srtListenerPorts` / `rtmpListenerPorts` are the key
sets of the two listener registries (their callback maps are modelled by
`HandleState`). -/
structure PlaylistState where
  playlist : List PlaylistItem
  sourceIndex : Nat
  prev : Option PlayingItem
  current : Option PlayingItem
  next : Option PlayingItem
  timeouts : List TimerInfo
  playing : Option Nat
  transitionDuration : Int
  srtListenerPorts : List Nat
  rtmpListenerPorts : List Nat
deriving DecidableEq, Repr

/-- Fresh controller state, as built by the `Playlist` constructor: index 0,
all slots empty, no timers, default transition duration 300 ms.  The listener
port sets are those the registry (eventually) holds. -/
def initState (pl : List PlaylistItem) (srtPorts rtmpPorts : List Nat) : PlaylistState :=
  ⟨pl, 0, none, none, none, [], none, 300, srtPorts, rtmpPorts⟩

/-- JS `a || b` on optional numbers (`item.duration || await createInfo.duration`):
a present but zero value is falsy and falls through to `b`. -/
def jsOr (a b : Option Int) : Option Int :=
  match a with
  | some x => if x = 0 then b else some x
  | none => b

/-- The duration-timer arming logic of `update()`:
`if (currentDuration) setTimeout(..., currentDuration - transitionDuration)`.
Returns the raw delay argument passed to `setTimeout`, or `none` when no timer
is armed (no known duration, or a falsy duration of exactly 0). -/
def scheduleAdvanceTimer (currentDuration : Option Int) (transitionDuration : Int) :
    Option Int :=
  match currentDuration with
  | some d => if d = 0 then none else some (d - transitionDuration)
  | none => none

/-- Node.js `setTimeout` semantics for the delay argument: a delay below 1 ms
(including every negative delay) is clamped to 1 ms. -/
def nodeEffectiveDelay (x : Int) : Int :=
  if x < 1 then 1 else x

/-- `nodeId` computed by `createNode`: `input-<currentSource>` where
`currentSource` is the second argument of `createNode`. -/
def mkNodeId (currentSource : Nat) : String :=
  "input-" ++ toString currentSource

/-- The two slot names `subscribeToNode` can be asked to populate. -/
inductive SlotName
  | current
  | next
deriving DecidableEq, Repr

/-- The callback produced by `Playlist.subscribeToNode(sourceIndex, nodeType)`:
allocates a fresh `PlayingItem` with `ready = false` and installs it in the
requested slot.  (The source also wires `sub` with `sourceSelector`, a
`silenceSub` for video-kind items, and calls `refreshSubs()`; none of these
touch the slot indices or liveness.) -/
def subscribeToNode (st : PlaylistState) (sourceIndex : Nat) (nodeType : SlotName)
    (item : PlaylistItem) : PlaylistState :=
  let state : PlayingItem := ⟨item, sourceIndex, false, none⟩
  match nodeType with
  | .current => { st with current := some state }
  | .next => { st with next := some state }

/-- Engine responses consumed during a node creation: the duration the engine
reports for a local MP4 file at a given playlist position (`onInfo`), absent
for every other source type. -/
structure EngineEnv where
  mp4Duration : Nat → Option Int

/-- The information `createNode` returns (`CreatedNodeInfo` in the source):
the engine node id, the item's AV kind, the value of the resolved duration
promise, and whether the node is standalone (owned by the slot) rather than a
shared listener. -/
structure CreatedNodeInfo where
  nodeId : String
  kind : AVKind
  engineDuration : Option Int
  standalone : Bool
deriving DecidableEq, Repr

/-- The message of the error `createNode` throws when a required shared
listener is absent (the source text, which names an SRT listener in the RTMP
branch as well, is abbreviated here to avoid its apostrophe). -/
def noListenerMsg (port : Nat) : String :=
  s!"No SRT listener on port {port}"

/-- The registry port a listener-backed source requires (0 for sources that
need no shared listener). -/
def requiredListenerPort : PlaylistSource → Nat
  | .srt _ _ port => port
  | .rtmp port _ _ => port
  | _ => 0

/-- `missingListener st item` holds when `item` needs a pre-created shared
listener (SRT in listener mode, or RTMP) and the corresponding registry has no
entry for its port. -/
def missingListener (st : PlaylistState) (item : PlaylistItem) : Bool :=
  match item.source with
  | .srt .listener _ port => !(st.srtListenerPorts.contains port)
  | .rtmp port _ _ => !(st.rtmpListenerPorts.contains port)
  | _ => false

/-- `Playlist.createNode(item, currentSource, subscribeNode)`.  For standalone
sources the engine's `onCreate` hook invokes the subscribe callback during
creation; for shared-listener sources the factory calls it directly after the
registry lookup.  A missing listener raises before any node is created or any
slot state is touched (the thrown message is abbreviated here; the source
message for both branches names an SRT listener).  Hooks that merely schedule
later events (`onEof`, `onConnectionStatusChange`, the per-handle disconnect
registration) are modelled by the external `Step` transitions and the
`HandleState`/`rtmpDisconnectTriggersUpdate` definitions. -/
def createNode (eng : EngineEnv) (st : PlaylistState) (item : PlaylistItem)
    (currentSource : Nat) (subIndex : Nat) (slot : SlotName) :
    Except String (PlaylistState × CreatedNodeInfo) :=
  let nodeId := mkNodeId currentSource
  match item.source with
  | .localTsFile _ =>
      .ok (subscribeToNode st subIndex slot item, ⟨nodeId, nodeKind item.source, none, true⟩)
  | .localMp4File _ =>
      .ok (subscribeToNode st subIndex slot item,
        ⟨nodeId, nodeKind item.source, eng.mp4Duration subIndex, true⟩)
  | .srt mode _ port =>
      if mode = SrtMode.listener then
        if st.srtListenerPorts.contains port then
          .ok (subscribeToNode st subIndex slot item, ⟨nodeId, nodeKind item.source, none, false⟩)
        else
          .error (noListenerMsg port)
      else
        .ok (subscribeToNode st subIndex slot item, ⟨nodeId, nodeKind item.source, none, true⟩)
  | .rtmp port _ _ =>
      if st.rtmpListenerPorts.contains port then
        .ok (subscribeToNode st subIndex slot item, ⟨nodeId, nodeKind item.source, none, false⟩)
      else
        .error (noListenerMsg port)
  | .image _ =>
      .ok (subscribeToNode st subIndex slot item, ⟨nodeId, nodeKind item.source, none, true⟩)
  | .rtp =>
      .ok (subscribeToNode st subIndex slot item, ⟨nodeId, nodeKind item.source, none, true⟩)
  | .whip =>
      .ok (subscribeToNode st subIndex slot item, ⟨nodeId, nodeKind item.source, none, true⟩)

/-- `Playlist.refreshActive()`: if the current slot is ready and not already
the active pin, activate it (record `playing`; the delayed
`switcher.switchSource` command is outside the controller state); otherwise,
if nothing was ever active and the previous slot is ready, activate that. -/
def refreshActive (st : PlaylistState) : PlaylistState :=
  match st.current with
  | some c =>
      if st.playing ≠ some c.index ∧ c.ready then
        { st with playing := some c.index }
      else
        match st.prev with
        | some p =>
            if st.playing = none ∧ p.ready then { st with playing := some p.index } else st
        | none => st
  | none =>
      match st.prev with
      | some p =>
          if st.playing = none ∧ p.ready then { st with playing := some p.index } else st
      | none => st

/-- One completed factory call made during `update()`: the engine node id it
used and the playlist position its subscribe callback was built for. -/
structure FactoryCall where
  nodeId : String
  subIndex : Nat
deriving DecidableEq, Repr

/-- Outcome of one `update()` invocation: normal completion, `process.exit`
on playlist exhaustion, or a propagated factory exception.  `errored` carries
the state at the moment of the throw.  Both carry the factory calls that
completed. -/
inductive UpdateResult
  | ok (st : PlaylistState) (calls : List FactoryCall)
  | exited (calls : List FactoryCall)
  | errored (msg : String) (st : PlaylistState) (calls : List FactoryCall)
deriving DecidableEq, Repr

/-- The duration-timer block of `update()` (`if (currentDuration) { const
timeout = setTimeout(...); this.timeouts.push(timeout); }`): arm a timer for
the current item at the raw delay `scheduleAdvanceTimer` computes.  On expiry
the timer captures `current.closeNode`, calls `update()`, and schedules the
captured close one second later — effects modelled by the `Step` transitions
and `HandleState`. -/
def armTimer (st : PlaylistState) (currentSource : Nat) : PlaylistState :=
  match scheduleAdvanceTimer (st.current.bind (fun c => c.duration)) st.transitionDuration with
  | some delay => { st with timeouts := st.timeouts ++ [⟨currentSource, delay⟩] }
  | none => st

/-- Second half of `update()`: arm the duration timer for the current item,
then prewarm `playlist[currentSource+1]` when it exists and is live (note the
source hands `currentSource` — not `currentSource+1` — to `createNode`, while
the subscribe callback gets `currentSource+1`). -/
def afterCurrent (eng : EngineEnv) (st : PlaylistState) (currentSource : Nat)
    (calls : List FactoryCall) : UpdateResult :=
  let st6 := armTimer st currentSource
  match st6.playlist[currentSource + 1]? with
  | none => .ok st6 calls
  | some nextItem =>
      if isLive nextItem.source then
        match createNode eng st6 nextItem currentSource (currentSource + 1) .next with
        | .error msg => .errored msg st6 calls
        | .ok (st7, info) =>
            let duration := jsOr nextItem.duration info.engineDuration
            .ok { st7 with next := st7.next.map (fun n => { n with duration := duration }) }
              (calls ++ [⟨info.nodeId, currentSource + 1⟩])
      else
        .ok st6 calls

/-- The slot-handling core of `update()` (after timer clearing, index advance,
exhaustion check and the `prev ← current` shift): either promote a prewarmed
`next` (re-evaluating the active pin via `refreshActive`) or synchronously
create the node for the new item — whose subscribe callback installs the
`current` slot — and write its duration; then arm the duration timer and
prewarm the following item via `afterCurrent`. -/
def updateCore (eng : EngineEnv) (st3 : PlaylistState) (item : PlaylistItem)
    (currentSource : Nat) : UpdateResult :=
  match st3.next with
  | some nxt =>
      let st4 := refreshActive { st3 with current := some nxt, next := none }
      afterCurrent eng st4 currentSource []
  | none =>
      match createNode eng st3 item currentSource currentSource .current with
      | .error msg => .errored msg st3 []
      | .ok (st4, info) =>
          let duration := jsOr item.duration info.engineDuration
          let st5 :=
            { st4 with current := st4.current.map (fun c => { c with duration := duration }) }
          afterCurrent eng st5 currentSource [⟨info.nodeId, currentSource⟩]

/-- `Playlist.update()`.  Clears every pending duration timer, advances
`sourceIndex` (both before any suspension point, in this order), exits the
process on playlist exhaustion, shifts `prev ← current`, then runs
`updateCore`. -/
def update (eng : EngineEnv) (st0 : PlaylistState) : UpdateResult :=
  let st1 := { st0 with timeouts := [] }
  let currentSource := st1.sourceIndex
  let st2 := { st1 with sourceIndex := currentSource + 1 }
  match st2.playlist[currentSource]? with
  | none => .exited []
  | some item => updateCore eng { st2 with prev := st2.current } item currentSource

/-- `Playlist.switch()` simply calls `update()` (as does `start()`). -/
def switchSource (eng : EngineEnv) (st : PlaylistState) : UpdateResult :=
  update eng st

/-- The factory calls recorded in an update outcome. -/
def updateCalls : UpdateResult → List FactoryCall
  | .ok _ calls => calls
  | .exited calls => calls
  | .errored _ _ calls => calls

/-- The pending timers of an update outcome (empty for `exited`, where the
process terminates). -/
def updateTimeouts : UpdateResult → List TimerInfo
  | .ok st _ => st.timeouts
  | .exited _ => []
  | .errored _ st _ => st.timeouts

/-- An engine that reports no MP4 durations. -/
def engNone : EngineEnv :=
  ⟨fun _ => none⟩

/- ------------------------------------------------------------------ -/
/- Listener pre-creation and the resolution order of Playlist.create   -/
/- ------------------------------------------------------------------ -/

/-- Protocol of a shared listener registry entry. -/
inductive Proto
  | srt
  | rtmp
deriving DecidableEq, Repr

/-- Events observable around `Playlist.create`: the start of an engine
listener-node creation (the `await` inside `precreateListeners`), the
registration of the finished node in the registry map (`this.srtListeners.set`
/ `this.rtmpListeners.set`), and the resolution of the promise returned by
`create`. -/
inductive CreateEv
  | beginListener (p : Proto) (port : Nat)
  | registerListener (p : Proto) (port : Nat)
  | resolveCreate
deriving DecidableEq, Repr

/-- The event sequence of `Playlist.precreateListeners()`: for each playlist
item that is a listener-mode SRT (per-port deduplicated against
`srtListeners`) or an RTMP (deduplicated against `rtmpListeners`), start the
engine listener node, await it, and register it.  An RTMP item whose port is
already registered falls through to the RTP log line in the source and
creates nothing. -/
def listenerSteps : List PlaylistItem → List Nat → List Nat → List CreateEv
  | [], _, _ => []
  | item :: rest, srtPorts, rtmpPorts =>
    match item.source with
    | .srt mode _ port =>
        if mode = SrtMode.listener ∧ ¬ srtPorts.contains port then
          CreateEv.beginListener .srt port :: CreateEv.registerListener .srt port ::
            listenerSteps rest (port :: srtPorts) rtmpPorts
        else
          listenerSteps rest srtPorts rtmpPorts
    | .rtmp port _ _ =>
        if ¬ rtmpPorts.contains port then
          CreateEv.beginListener .rtmp port :: CreateEv.registerListener .rtmp port ::
            listenerSteps rest srtPorts (port :: rtmpPorts)
        else
          listenerSteps rest srtPorts rtmpPorts
    | _ => listenerSteps rest srtPorts rtmpPorts

/-- The event order around `Playlist.create`: the source calls
`ret.precreateListeners()` WITHOUT awaiting it, so the async body runs
synchronously only until its first `await` (the first listener's node
creation), at which point control returns to `create`, which resolves its
promise; the remaining pre-creation steps — including every registry
registration — run after that resolution.  When no item needs a listener,
pre-creation finishes synchronously and only the resolution remains. -/
def createEvents (pl : List PlaylistItem) : List CreateEv :=
  match listenerSteps pl [] [] with
  | [] => [CreateEv.resolveCreate]
  | e :: rest => e :: CreateEv.resolveCreate :: rest

/- ------------------------------------------------------------------ -/
/- Reachable controller states                                         -/
/- ------------------------------------------------------------------ -/

/-- Which slot a stream-metadata event's installed selector writes `ready`
on. -/
inductive SlotRef
  | prev
  | current
  | next
deriving DecidableEq, Repr

/-- Effect on the controller state of a stream-metadata delivery: the slot's
installed selector recomputes its `ready` bit (`sourceSelector ... |>.ready`).
The written value is kept arbitrary here, which covers every possible
metadata list and filter. -/
def setReady (st : PlaylistState) (r : SlotRef) (b : Bool) : PlaylistState :=
  match r with
  | .prev => { st with prev := st.prev.map (fun p => { p with ready := b }) }
  | .current => { st with current := st.current.map (fun p => { p with ready := b }) }
  | .next => { st with next := st.next.map (fun p => { p with ready := b }) }

/-- Controller transitions: a completed `update()` (triggered by `start()`,
`switch()`, EOF, disconnect or a duration timer), a stream-metadata delivery
(selector write followed by the selector's `refreshActive()` call), or the
engine's `onClose` notification clearing the `prev` slot. -/
inductive Step : PlaylistState → PlaylistState → Prop
  | updateStep (eng : EngineEnv) (st st' : PlaylistState) (calls : List FactoryCall) :
      update eng st = UpdateResult.ok st' calls → Step st st'
  | streamEvent (st : PlaylistState) (r : SlotRef) (b : Bool) :
      Step st (refreshActive (setReady st r b))
  | prevClosed (st : PlaylistState) :
      Step st { st with prev := none }

/-- States reachable from a freshly constructed controller. -/
def Reachable (pl : List PlaylistItem) (srtPorts rtmpPorts : List Nat)
    (st : PlaylistState) : Prop :=
  Relation.ReflTransGen Step (initState pl srtPorts rtmpPorts) st

/-- The slot invariant: the current slot (if any) sits at `sourceIndex - 1`,
and the next slot (if any) is live and sits at `sourceIndex`. -/
def SlotInv (st : PlaylistState) : Prop :=
  (∀ c, st.current = some c → c.index + 1 = st.sourceIndex) ∧
  (∀ n, st.next = some n → isLive n.item.source = true ∧ n.index = st.sourceIndex)

/-- The timer invariant: every pending duration timer was armed by the most
recent `update()`, i.e. for the item at `sourceIndex - 1` (the one currently
playing). -/
def TimerInv (st : PlaylistState) : Prop :=
  ∀ t ∈ st.timeouts, t.forSource + 1 = st.sourceIndex

/- ------------------------------------------------------------------ -/
/- Concrete inputs used to exercise the theorems                       -/
/- ------------------------------------------------------------------ -/

/-- A local TS-file playlist item. -/
def tsItem : PlaylistItem :=
  { source := PlaylistSource.localTsFile "a.ts" }

/-- An SRT caller (live, standalone) playlist item. -/
def srtCallerItem : PlaylistItem :=
  { source := PlaylistSource.srt .caller "1.2.3.4" 9000 }

/-- An SRT listener playlist item on port 5000. -/
def srtListenerItem : PlaylistItem :=
  { source := PlaylistSource.srt .listener "0.0.0.0" 5000 }

/-- An MP4 item with an explicit 100 ms duration (shorter than the default
300 ms transition). -/
def mp4Item100 : PlaylistItem :=
  { duration := some 100, source := PlaylistSource.localMp4File "a.mp4" }

/-- An MP4 item with an explicit 200 ms duration. -/
def mp4Item200 : PlaylistItem :=
  { duration := some 200, source := PlaylistSource.localMp4File "b.mp4" }

/-- Three TS files in a row. -/
def pl3 : List PlaylistItem :=
  [tsItem, tsItem, tsItem]

/-- Two timed MP4 files in a row. -/
def plM : List PlaylistItem :=
  [mp4Item100, mp4Item200]

/-- The state after one `update()` on the single-TS-file playlist. -/
def tsState1 : PlaylistState :=
  { playlist := [tsItem], sourceIndex := 1, prev := none,
    current := some ⟨tsItem, 0, false, none⟩, next := none, timeouts := [],
    playing := none, transitionDuration := 300, srtListenerPorts := [],
    rtmpListenerPorts := [] }

/-- The state after one `update()` on `pl3`. -/
def pl3State1 : PlaylistState :=
  { playlist := pl3, sourceIndex := 1, prev := none,
    current := some ⟨tsItem, 0, false, none⟩, next := none, timeouts := [],
    playing := none, transitionDuration := 300, srtListenerPorts := [],
    rtmpListenerPorts := [] }

/-- The state after two `update()`s on `pl3`. -/
def pl3State2 : PlaylistState :=
  { playlist := pl3, sourceIndex := 2, prev := some ⟨tsItem, 0, false, none⟩,
    current := some ⟨tsItem, 1, false, none⟩, next := none, timeouts := [],
    playing := none, transitionDuration := 300, srtListenerPorts := [],
    rtmpListenerPorts := [] }

/-- The state after one `update()` on `plM`: one pending timer armed for item
0 with raw delay 100 - 300 = -200. -/
def plMState1 : PlaylistState :=
  { playlist := plM, sourceIndex := 1, prev := none,
    current := some ⟨mp4Item100, 0, false, some 100⟩, next := none,
    timeouts := [⟨0, -200⟩], playing := none, transitionDuration := 300,
    srtListenerPorts := [], rtmpListenerPorts := [] }

/-- The state after a second `update()` on `plM`: the old timer is gone and a
fresh one is armed for item 1. -/
def plMState2 : PlaylistState :=
  { playlist := plM, sourceIndex := 2,
    prev := some ⟨mp4Item100, 0, false, some 100⟩,
    current := some ⟨mp4Item200, 1, false, some 200⟩, next := none,
    timeouts := [⟨1, -100⟩], playing := none, transitionDuration := 300,
    srtListenerPorts := [], rtmpListenerPorts := [] }

/- ------------------------------------------------------------------ -/
/- Helper lemmas about the update machinery                            -/
/- ------------------------------------------------------------------ -/

/-- `subscribeToNode` into the current slot only writes `current`. -/
theorem subscribeToNode_current_eq (st : PlaylistState) (i : Nat) (item : PlaylistItem) :
    subscribeToNode st i .current item = { st with current := some ⟨item, i, false, none⟩ } :=
  rfl

/-- `subscribeToNode` into the next slot only writes `next`. -/
theorem subscribeToNode_next_eq (st : PlaylistState) (i : Nat) (item : PlaylistItem) :
    subscribeToNode st i .next item = { st with next := some ⟨item, i, false, none⟩ } :=
  rfl

/-- When `createNode` succeeds, the only state change is the subscribe
callback's slot installation. -/
theorem createNode_ok_state (eng : EngineEnv) (st : PlaylistState) (item : PlaylistItem)
    (c i : Nat) (slot : SlotName) (st' : PlaylistState) (info : CreatedNodeInfo)
    (h : createNode eng st item c i slot = .ok (st', info)) :
    st' = subscribeToNode st i slot item := by
  unfold createNode at h
  cases hs : item.source <;> simp only [hs] at h <;>
    first
      | (simp only [Except.ok.injEq, Prod.mk.injEq] at h; exact h.1.symm)
      | (split at h <;>
          first
            | (simp only [Except.ok.injEq, Prod.mk.injEq] at h; exact h.1.symm)
            | (split at h <;>
                first
                  | (simp only [Except.ok.injEq, Prod.mk.injEq] at h; exact h.1.symm)
                  | cases h)
            | cases h)

/-- The node id a successful `createNode` uses is `input-<currentSource>`. -/
theorem createNode_ok_nodeId (eng : EngineEnv) (st : PlaylistState) (item : PlaylistItem)
    (c i : Nat) (slot : SlotName) (st' : PlaylistState) (info : CreatedNodeInfo)
    (h : createNode eng st item c i slot = .ok (st', info)) :
    info.nodeId = mkNodeId c := by
  unfold createNode at h
  cases hs : item.source <;> simp only [hs] at h <;> (try split at h) <;> (try split at h) <;>
    cases h
  all_goals rfl

/-- `armTimer` only appends (at most) one timer armed for `currentSource`. -/
theorem armTimer_state (st : PlaylistState) (cs : Nat) :
    (armTimer st cs).playlist = st.playlist ∧
    (armTimer st cs).sourceIndex = st.sourceIndex ∧
    (armTimer st cs).current = st.current ∧
    (armTimer st cs).next = st.next ∧
    (∀ t ∈ (armTimer st cs).timeouts, t ∈ st.timeouts ∨ t.forSource = cs) := by
  unfold armTimer
  split
  · refine ⟨rfl, rfl, rfl, rfl, ?_⟩
    intro t ht
    rcases List.mem_append.mp ht with h | h
    · exact Or.inl h
    · right
      have : t = ⟨cs, _⟩ := List.mem_singleton.mp h
      rw [this]
  · exact ⟨rfl, rfl, rfl, rfl, fun t ht => Or.inl ht⟩

/-- `refreshActive` only rewrites `playing`. -/
theorem refreshActive_state (st : PlaylistState) :
    (refreshActive st).playlist = st.playlist ∧
    (refreshActive st).sourceIndex = st.sourceIndex ∧
    (refreshActive st).prev = st.prev ∧
    (refreshActive st).current = st.current ∧
    (refreshActive st).next = st.next ∧
    (refreshActive st).timeouts = st.timeouts ∧
    (refreshActive st).transitionDuration = st.transitionDuration := by
  unfold refreshActive
  split <;> (try split) <;> (try split) <;> (try split) <;> simp

/-- State relation for a successful `afterCurrent`: index, playlist and the
current slot are untouched; `next` is unchanged or freshly prewarmed (live,
positioned at `cs+1`); any new timer is armed for `cs`. -/
theorem afterCurrent_ok_state (eng : EngineEnv) (st : PlaylistState) (cs : Nat)
    (calls : List FactoryCall) (st' : PlaylistState) (calls' : List FactoryCall)
    (h : afterCurrent eng st cs calls = .ok st' calls') :
    st'.sourceIndex = st.sourceIndex ∧
    st'.playlist = st.playlist ∧
    st'.current = st.current ∧
    (st'.next = st.next ∨
      ∃ it d, st.playlist[cs + 1]? = some it ∧ isLive it.source = true ∧
        st'.next = some ⟨it, cs + 1, false, d⟩) ∧
    (∀ t ∈ st'.timeouts, t ∈ st.timeouts ∨ t.forSource = cs) := by
  obtain ⟨ha1, ha2, ha3, ha4, ha5⟩ := armTimer_state st cs
  simp only [afterCurrent] at h
  split at h
  next hget =>
    cases h
    exact ⟨ha2, ha1, ha3, Or.inl ha4, ha5⟩
  next it hget =>
    split at h
    · split at h
      next msg hcr => cases h
      next st7 info hcr =>
        have h7 := createNode_ok_state eng (armTimer st cs) it cs (cs + 1) .next st7 info hcr
        rw [subscribeToNode_next_eq] at h7
        cases h
        subst h7
        refine ⟨ha2, ha1, ha3, ?_, ha5⟩
        right
        refine ⟨it, jsOr it.duration info.engineDuration, ?_, ?_, ?_⟩
        · rw [← ha1]; exact hget
        · assumption
        · simp
    · cases h
      exact ⟨ha2, ha1, ha3, Or.inl ha4, ha5⟩

/-- State relation for an `afterCurrent` that propagates a prewarm factory
error: the state at the throw has untouched slots and only a possible new
timer for `cs`. -/
theorem afterCurrent_errored_state (eng : EngineEnv) (st : PlaylistState) (cs : Nat)
    (calls : List FactoryCall) (msg : String) (st' : PlaylistState)
    (calls' : List FactoryCall)
    (h : afterCurrent eng st cs calls = .errored msg st' calls') :
    st'.sourceIndex = st.sourceIndex ∧
    st'.playlist = st.playlist ∧
    st'.current = st.current ∧
    st'.next = st.next ∧
    (∀ t ∈ st'.timeouts, t ∈ st.timeouts ∨ t.forSource = cs) := by
  obtain ⟨ha1, ha2, ha3, ha4, ha5⟩ := armTimer_state st cs
  simp only [afterCurrent] at h
  split at h
  next hget => cases h
  next it hget =>
    split at h
    · split at h
      next msg0 hcr =>
        cases h
        exact ⟨ha2, ha1, ha3, ha4, ha5⟩
      next st7 info hcr => cases h
    · cases h

/-- State relation for a successful `updateCore`: the current slot holds the
promoted prewarmed item or a freshly subscribed one at position `cs`; `next`
is empty or freshly prewarmed (live, at `cs+1`); new timers are armed for
`cs`. -/
theorem updateCore_ok_state (eng : EngineEnv) (st3 : PlaylistState) (item : PlaylistItem)
    (cs : Nat) (st' : PlaylistState) (calls : List FactoryCall)
    (h : updateCore eng st3 item cs = .ok st' calls) :
    st'.sourceIndex = st3.sourceIndex ∧
    st'.playlist = st3.playlist ∧
    (∀ t ∈ st'.timeouts, t ∈ st3.timeouts ∨ t.forSource = cs) ∧
    ((∃ nxt, st3.next = some nxt ∧ st'.current = some nxt) ∨
      (st3.next = none ∧ ∃ d, st'.current = some ⟨item, cs, false, d⟩)) ∧
    (st'.next = none ∨
      ∃ it d, st3.playlist[cs + 1]? = some it ∧ isLive it.source = true ∧
        st'.next = some ⟨it, cs + 1, false, d⟩) := by
  simp only [updateCore] at h
  split at h
  next nxt hnext =>
    obtain ⟨hr1, hr2, hr3, hr4, hr5, hr6, hr7⟩ :=
      refreshActive_state { st3 with current := some nxt, next := none }
    obtain ⟨hb1, hb2, hb3, hb4, hb5⟩ := afterCurrent_ok_state eng _ cs [] st' calls h
    refine ⟨?_, ?_, ?_, ?_, ?_⟩
    · rw [hb1, hr2]
    · rw [hb2, hr1]
    · intro t ht
      rcases hb5 t ht with h0 | h0
      · rw [hr6] at h0; exact Or.inl h0
      · exact Or.inr h0
    · left
      refine ⟨nxt, hnext, ?_⟩
      rw [hb3, hr4]
    · rcases hb4 with h0 | ⟨it, d, hget, hlive, hn⟩
      · left; rw [h0, hr5]
      · right
        refine ⟨it, d, ?_, hlive, hn⟩
        rw [hr1] at hget; exact hget
  next hnext =>
    split at h
    next msg hcr => cases h
    next st4 info hcr =>
      have h4 := createNode_ok_state eng st3 item cs cs .current st4 info hcr
      rw [subscribeToNode_current_eq] at h4
      subst h4
      obtain ⟨hb1, hb2, hb3, hb4, hb5⟩ := afterCurrent_ok_state eng _ cs _ st' calls h
      refine ⟨?_, ?_, ?_, ?_, ?_⟩
      · simpa using hb1
      · simpa using hb2
      · intro t ht
        rcases hb5 t ht with h0 | h0
        · left; simpa using h0
        · exact Or.inr h0
      · right
        refine ⟨hnext, jsOr item.duration info.engineDuration, ?_⟩
        rw [hb3]; simp
      · rcases hb4 with h0 | ⟨it, d, hget, hlive, hn⟩
        · left
          have h1 : st'.next = st3.next := by simpa using h0
          rw [h1, hnext]
        · right
          exact ⟨it, d, by simpa using hget, hlive, hn⟩

/-- State relation for an `updateCore` that propagates a factory error: index
and playlist are those at entry, and any pending timer is armed for `cs`. -/
theorem updateCore_errored_state (eng : EngineEnv) (st3 : PlaylistState)
    (item : PlaylistItem) (cs : Nat) (msg : String) (st' : PlaylistState)
    (calls : List FactoryCall)
    (h : updateCore eng st3 item cs = .errored msg st' calls) :
    st'.sourceIndex = st3.sourceIndex ∧
    st'.playlist = st3.playlist ∧
    (∀ t ∈ st'.timeouts, t ∈ st3.timeouts ∨ t.forSource = cs) := by
  simp only [updateCore] at h
  split at h
  next nxt hnext =>
    obtain ⟨hr1, hr2, hr3, hr4, hr5, hr6, hr7⟩ :=
      refreshActive_state { st3 with current := some nxt, next := none }
    obtain ⟨hb1, hb2, hb3, hb4, hb5⟩ := afterCurrent_errored_state eng _ cs [] msg st' calls h
    refine ⟨?_, ?_, ?_⟩
    · rw [hb1, hr2]
    · rw [hb2, hr1]
    · intro t ht
      rcases hb5 t ht with h0 | h0
      · rw [hr6] at h0; exact Or.inl h0
      · exact Or.inr h0
  next hnext =>
    split at h
    next msg0 hcr =>
      cases h
      exact ⟨rfl, rfl, fun t ht => Or.inl ht⟩
    next st4 info hcr =>
      have h4 := createNode_ok_state eng st3 item cs cs .current st4 info hcr
      rw [subscribeToNode_current_eq] at h4
      subst h4
      obtain ⟨hb1, hb2, hb3, hb4, hb5⟩ := afterCurrent_errored_state eng _ cs _ msg st' calls h
      refine ⟨by simpa using hb1, by simpa using hb2, ?_⟩
      intro t ht
      rcases hb5 t ht with h0 | h0
      · left; simpa using h0
      · exact Or.inr h0

/-- State relation for a successful `update()`: the index advances by exactly
one; every pending timer afterwards is armed for the item just made current
(`st.sourceIndex`); the current slot holds the promoted prewarmed item or a
fresh subscription at position `st.sourceIndex`; `next` is empty or a live
prewarm at `st.sourceIndex + 1`. -/
theorem update_ok_state (eng : EngineEnv) (st st' : PlaylistState) (calls : List FactoryCall)
    (h : update eng st = .ok st' calls) :
    st'.sourceIndex = st.sourceIndex + 1 ∧
    st'.playlist = st.playlist ∧
    (∀ t ∈ st'.timeouts, t.forSource = st.sourceIndex) ∧
    ((∃ nxt, st.next = some nxt ∧ st'.current = some nxt) ∨
      (st.next = none ∧ ∃ item d, st.playlist[st.sourceIndex]? = some item ∧
        st'.current = some ⟨item, st.sourceIndex, false, d⟩)) ∧
    (st'.next = none ∨
      ∃ it d, st.playlist[st.sourceIndex + 1]? = some it ∧ isLive it.source = true ∧
        st'.next = some ⟨it, st.sourceIndex + 1, false, d⟩) := by
  simp only [update] at h
  split at h
  next hget => cases h
  next item hget =>
    obtain ⟨hb1, hb2, hb3, hb4, hb5⟩ := updateCore_ok_state eng _ item st.sourceIndex st' calls h
    refine ⟨by simpa using hb1, by simpa using hb2, ?_, ?_, ?_⟩
    · intro t ht
      rcases hb3 t ht with h0 | h0
      · simp at h0
      · exact h0
    · rcases hb4 with ⟨nxt, hn, hc⟩ | ⟨hn, d, hc⟩
      · left; exact ⟨nxt, by simpa using hn, hc⟩
      · right
        exact ⟨by simpa using hn, item, d, by simpa using hget, hc⟩
    · rcases hb5 with h0 | ⟨it, d, hget2, hlive, hn⟩
      · exact Or.inl h0
      · right
        exact ⟨it, d, by simpa using hget2, hlive, hn⟩

/-- State relation for an `update()` that propagates a factory error: the
index was already advanced by one and any pending timer is armed for
`st.sourceIndex`. -/
theorem update_errored_state (eng : EngineEnv) (st : PlaylistState) (msg : String)
    (st' : PlaylistState) (calls : List FactoryCall)
    (h : update eng st = .errored msg st' calls) :
    st'.sourceIndex = st.sourceIndex + 1 ∧
    st'.playlist = st.playlist ∧
    (∀ t ∈ st'.timeouts, t.forSource = st.sourceIndex) := by
  simp only [update] at h
  split at h
  next hget => cases h
  next item hget =>
    obtain ⟨hb1, hb2, hb3⟩ := updateCore_errored_state eng _ item st.sourceIndex msg st' calls h
    refine ⟨by simpa using hb1, by simpa using hb2, ?_⟩
    intro t ht
    rcases hb3 t ht with h0 | h0
    · simp at h0
    · exact h0

/-- A successful `update()` preserves the slot invariant, both on the
promote-prewarmed path and on the fresh-creation path. -/
theorem update_ok_slotInv (eng : EngineEnv) (st st' : PlaylistState)
    (calls : List FactoryCall) (hInv : SlotInv st)
    (h : update eng st = UpdateResult.ok st' calls) : SlotInv st' := by
  obtain ⟨hidx, hpl, htim, hcur, hnext⟩ := update_ok_state eng st st' calls h
  constructor
  · intro c hc
    rcases hcur with ⟨nxt, hn, hc'⟩ | ⟨hn, item, d, hget, hc'⟩
    · rw [hc'] at hc
      injection hc with hc
      subst hc
      have h1 := (hInv.2 nxt hn).2
      omega
    · rw [hc'] at hc
      injection hc with hc
      subst hc
      simp only []
      omega
  · intro n hn
    rcases hnext with h0 | ⟨it, d, hget, hlive, hn'⟩
    · rw [h0] at hn; cases hn
    · rw [hn'] at hn
      injection hn with hn
      subst hn
      refine ⟨by simpa using hlive, ?_⟩
      simp only []
      omega

/-- Writing a slot's `ready` bit preserves the slot invariant. -/
theorem setReady_slotInv (st : PlaylistState) (r : SlotRef) (b : Bool)
    (h : SlotInv st) : SlotInv (setReady st r b) := by
  cases r
  case prev => exact h
  case current =>
    constructor
    · intro c hc
      have hc2 : st.current.map (fun p => { p with ready := b }) = some c := hc
      rcases hcurr : st.current with _ | c0
      · rw [hcurr] at hc2; cases hc2
      · rw [hcurr] at hc2
        injection hc2 with hc2
        have h0 := h.1 c0 hcurr
        rw [← hc2]
        exact h0
    · intro n hn
      exact h.2 n hn
  case next =>
    constructor
    · intro c hc
      exact h.1 c hc
    · intro n hn
      have hn2 : st.next.map (fun p => { p with ready := b }) = some n := hn
      rcases hnext : st.next with _ | n0
      · rw [hnext] at hn2; cases hn2
      · rw [hnext] at hn2
        injection hn2 with hn2
        have h0 := h.2 n0 hnext
        rw [← hn2]
        exact ⟨h0.1, h0.2⟩

/-- `refreshActive` preserves the slot invariant. -/
theorem refreshActive_slotInv (st : PlaylistState) (h : SlotInv st) :
    SlotInv (refreshActive st) := by
  obtain ⟨hr1, hr2, hr3, hr4, hr5, hr6, hr7⟩ := refreshActive_state st
  constructor
  · intro c hc
    rw [hr2]
    exact h.1 c (by rw [← hr4]; exact hc)
  · intro n hn
    rw [hr2]
    exact h.2 n (by rw [← hr5]; exact hn)

/-- Every transition preserves the slot invariant. -/
theorem step_slotInv (st st' : PlaylistState) (hstep : Step st st') (h : SlotInv st) :
    SlotInv st' := by
  cases hstep with
  | updateStep eng st st' calls hu => exact update_ok_slotInv eng st st' calls h hu
  | streamEvent st r b => exact refreshActive_slotInv _ (setReady_slotInv st r b h)
  | prevClosed st => exact h

/-- A fresh controller satisfies the slot invariant. -/
theorem initState_slotInv (pl : List PlaylistItem) (srtPorts rtmpPorts : List Nat) :
    SlotInv (initState pl srtPorts rtmpPorts) :=
  ⟨fun c hc => (nomatch hc), fun n hn => (nomatch hn)⟩

/-- The slot invariant holds in every reachable state. -/
theorem reachable_slotInv (pl : List PlaylistItem) (srtPorts rtmpPorts : List Nat)
    (st : PlaylistState) (h : Reachable pl srtPorts rtmpPorts st) : SlotInv st := by
  induction h with
  | refl => exact initState_slotInv pl srtPorts rtmpPorts
  | tail hr hstep ih => exact step_slotInv _ _ hstep ih

/- ------------------------------------------------------------------ -/
/- Claim theorems for the selector and the small handle models         -/
/- ------------------------------------------------------------------ -/

/-- C1: for every slot subscription installed by `subscribeToNode`, the stream
selector (1) filters by the item's `streamKeyFilter` and keeps at most one
audio and one video key, (2) returns the pin mapping
`{ index.toString(): audio ++ video }` exactly when at least one such key is
present, and (3) sets `ready` to true exactly when
`(kind == "video" or audio present) and video present`. -/
theorem c1_stream_selector (f : StreamKey → Bool) (kind : AVKind)
    (idx : Nat) (streams : List StreamMetadata) :
    let audio := ((audioStreamKeys streams).filter f).take 1
    let video := ((videoStreamKeys streams).filter f).take 1
    audio.length ≤ 1 ∧ video.length ≤ 1 ∧
    (∀ k, k ∈ audio ++ video → f k = true) ∧
    (sourceSelector f kind idx streams).pinMapping
      = (if audio ++ video = [] then none else some (toString idx, audio ++ video)) ∧
    ((sourceSelector f kind idx streams).ready = true ↔
      ((kind = AVKind.video ∨ audio ≠ []) ∧ video ≠ [])) := by
  intro audio video
  refine ⟨?_, ?_, ?_, ?_, ?_⟩
  · exact List.length_take_le 1 _
  · exact List.length_take_le 1 _
  · intro k hk
    rcases List.mem_append.mp hk with h | h
    · exact List.of_mem_filter (List.mem_of_mem_take h)
    · exact List.of_mem_filter (List.mem_of_mem_take h)
  · show (if (audio ++ video).length ≥ 1 then
        some (toString idx, audio ++ video) else none) = _
    rcases h : audio ++ video with _ | ⟨k, ks⟩ <;> simp [h]
  · show ((kind = AVKind.video || audio.length ≥ 1) && video.length ≥ 1) = true ↔ _
    simp [Nat.succ_le_iff, List.length_pos]

/-- C5 counterexample: for a shared-listener handle (here with callback map
`["input-0"]`), `closeNode` is a total no-op: in particular it does NOT remove
the handle's disconnect callback from the registry, contradicting the claim
that it "removes that handle's disconnect callback from the registry". -/
theorem c5_closeNode_no_detach :
    closeNode false ⟨["input-0"], 0, false⟩ = ⟨["input-0"], 0, false⟩ ∧
    "input-0" ∈ (closeNode false ⟨["input-0"], 0, false⟩).registryCallbacks := by
  constructor
  · rfl
  · simp [closeNode]

/-- C5 as amended: for shared-listener handles `closeNode` performs no
operation at all (it neither touches the node nor the registry's callback
map); for every handle, no invocation of `closeNode` ever edits the registry;
and invoking `closeNode` twice has the same effect as invoking it once, once
the scheduled grace-delay close timers have run. -/
theorem c5_closeNode_noop_and_idempotent (b : Bool) (s : HandleState) :
    closeNode false s = s ∧
    (closeNode b s).registryCallbacks = s.registryCallbacks ∧
    runCloseTimers (closeNode b (closeNode b s)) = runCloseTimers (closeNode b s) := by
  refine ⟨rfl, ?_, ?_⟩
  · cases b <;> simp [closeNode]
  · cases b <;> simp [closeNode, runCloseTimers]

/-- C10: for an RTMP item whose `app` and `stream` are not both (truthily)
set, the captured `sourceName` stays `undefined`, so the disconnect callback's
guard `disconnectSourceName === sourceName` is false for every disconnecting
source name and `update()` is never called from it — a publisher disconnect
never advances the playlist past such an item. -/
theorem c10_unset_sourceName_never_updates (app stream : Option String)
    (h : (jsTruthyStr app && jsTruthyStr stream) = false) (s : String) :
    rtmpDisconnectTriggersUpdate (rtmpSourceName app stream) s = false := by
  unfold rtmpSourceName rtmpDisconnectTriggersUpdate
  simp [h]

/-- C10 witness: an item with `app` unset and `stream = "x"`; the guard is
false even for the matching-looking disconnect name. -/
theorem c10_witness :
    (jsTruthyStr none && jsTruthyStr (some "x")) = false ∧
    rtmpDisconnectTriggersUpdate (rtmpSourceName none (some "x")) "live/x" = false :=
  ⟨by decide, c10_unset_sourceName_never_updates none (some "x") (by decide) "live/x"⟩


/-- C7 (part 1 of the development): whenever `missingListener` holds for an
item, `createNode` raises the no-listener error immediately — the `Except` is
an error and no state (slot installation, node creation, callback
registration) is produced — and, when that item is the one `update()` must
start (fresh path), `update()` propagates exactly that error; the state at
the throw differs from the entry state only by `update`'s own prologue
(cleared timers, advanced index, `prev ← current` shift): `current` and
`next` are untouched by the factory and no factory call completed. -/
theorem c7_missing_listener_raises (eng : EngineEnv) (st : PlaylistState)
    (item : PlaylistItem) (cs i : Nat) (slot : SlotName)
    (hmiss : missingListener st item = true)
    (hitem : st.playlist[st.sourceIndex]? = some item)
    (hnext : st.next = none) :
    createNode eng st item cs i slot
      = .error (noListenerMsg (requiredListenerPort item.source)) ∧
    update eng st
      = .errored (noListenerMsg (requiredListenerPort item.source))
        { st with timeouts := [], sourceIndex := st.sourceIndex + 1, prev := st.current }
        [] := by
  have hcn : ∀ (st0 : PlaylistState), st0.srtListenerPorts = st.srtListenerPorts →
      st0.rtmpListenerPorts = st.rtmpListenerPorts →
      ∀ (c0 i0 : Nat) (slot0 : SlotName), createNode eng st0 item c0 i0 slot0
        = .error (noListenerMsg (requiredListenerPort item.source)) := by
    intro st0 he1 he2 c0 i0 slot0
    unfold missingListener at hmiss
    cases hs : item.source with
    | localTsFile f => rw [hs] at hmiss; simp at hmiss
    | localMp4File f => rw [hs] at hmiss; simp at hmiss
    | srt mode ip port =>
        rw [hs] at hmiss
        cases mode with
        | caller => simp at hmiss
        | listener =>
            simp at hmiss
            simp [createNode, hs, requiredListenerPort, he1, hmiss]
    | rtmp port app stream =>
        rw [hs] at hmiss
        simp at hmiss
        simp [createNode, hs, requiredListenerPort, he2, hmiss]
    | image f => rw [hs] at hmiss; simp at hmiss
    | rtp => rw [hs] at hmiss; simp at hmiss
    | whip => rw [hs] at hmiss; simp at hmiss
  refine ⟨hcn st rfl rfl cs i slot, ?_⟩
  simp only [update]
  rw [hitem]
  simp only [updateCore]
  rw [hnext]
  have hc2 := hcn
    { st with
      timeouts := []
      sourceIndex := st.sourceIndex + 1
      prev := st.current
      next := none } rfl rfl st.sourceIndex st.sourceIndex SlotName.current
  simp only [hc2]

/-- C7 witness: an SRT-listener item on port 5000 with an empty registry:
`createNode` errors immediately and `update()` propagates the error with the
slots untouched. -/
theorem c7_witness :
    createNode engNone (initState [srtListenerItem] [] []) srtListenerItem 0 0 .current
      = .error (noListenerMsg (requiredListenerPort srtListenerItem.source)) ∧
    update engNone (initState [srtListenerItem] [] [])
      = .errored (noListenerMsg (requiredListenerPort srtListenerItem.source))
        { (initState [srtListenerItem] [] []) with
          timeouts := []
          sourceIndex := (initState [srtListenerItem] [] []).sourceIndex + 1
          prev := (initState [srtListenerItem] [] []).current } [] :=
  c7_missing_listener_raises engNone (initState [srtListenerItem] [] []) srtListenerItem 0 0
    SlotName.current (by decide) (by rfl) rfl

/-- C6: in every reachable controller state, a populated `next` slot holds a
live source, and whenever both `current` and `next` are populated,
`next.index = current.index + 1`.  The `update()` transition preserves this
both when it promotes `next` to `current` and when it prewarms a new `next`
(`update_ok_slotInv`), and so do stream-metadata events and node closures. -/
theorem c6_next_slot_invariant (pl : List PlaylistItem) (srtPorts rtmpPorts : List Nat)
    (st : PlaylistState) (h : Reachable pl srtPorts rtmpPorts st) :
    (∀ n, st.next = some n → isLive n.item.source = true) ∧
    (∀ c n, st.current = some c → st.next = some n → n.index = c.index + 1) := by
  have hInv := reachable_slotInv pl srtPorts rtmpPorts st h
  refine ⟨fun n hn => (hInv.2 n hn).1, fun c n hc hn => ?_⟩
  have h1 := hInv.1 c hc
  have h2 := (hInv.2 n hn).2
  omega

/-- C6 witness: the state reached by one `update()` on a one-file playlist. -/
theorem c6_witness :
    (∀ n, tsState1.next = some n → isLive n.item.source = true) ∧
    (∀ c n, tsState1.current = some c → tsState1.next = some n →
      n.index = c.index + 1) :=
  c6_next_slot_invariant [tsItem] [] [] tsState1
    (Relation.ReflTransGen.single
      (Step.updateStep engNone (initState [tsItem] [] []) tsState1
        [⟨"input-0", 0⟩] (by rfl)))

/-- C8: two consecutive `switch()` calls whose `update()`s complete advance
the playlist position by exactly two, because each `update()` increments
`sourceIndex` by exactly one in its synchronous prologue. -/
theorem c8_switch_twice_advances_by_two (e1 e2 : EngineEnv) (st st1 st2 : PlaylistState)
    (calls1 calls2 : List FactoryCall)
    (h1 : switchSource e1 st = UpdateResult.ok st1 calls1)
    (h2 : switchSource e2 st1 = UpdateResult.ok st2 calls2) :
    st2.sourceIndex = st.sourceIndex + 2 := by
  have a1 := (update_ok_state e1 st st1 calls1 h1).1
  have a2 := (update_ok_state e2 st1 st2 calls2 h2).1
  omega

/-- C8 witness: two switches on a three-file playlist go from position 0 to
position 2. -/
theorem c8_witness :
    pl3State2.sourceIndex = (initState pl3 [] []).sourceIndex + 2 :=
  c8_switch_twice_advances_by_two engNone engNone (initState pl3 [] []) pl3State1 pl3State2
    [⟨"input-0", 0⟩] [⟨"input-1", 1⟩] (by rfl) (by rfl)

/-- C9: `update()` clears every pending duration timer in its prologue,
before `sourceIndex` is advanced; consequently, whether the invocation
completes or propagates a factory error, every timer pending afterwards was
armed for the item just made current (`st.sourceIndex`) and no timer armed
for the outgoing item (position `st.sourceIndex - 1`, by `TimerInv`)
survives — so an outgoing item's timer can never fire and trigger a second
advance. -/
theorem c9_outgoing_timer_cannot_refire (eng : EngineEnv) (st : PlaylistState)
    (msg : String) (st' : PlaylistState) (calls : List FactoryCall)
    (hInv : TimerInv st)
    (h : update eng st = UpdateResult.ok st' calls ∨
      update eng st = UpdateResult.errored msg st' calls) :
    (∀ t ∈ st'.timeouts, t.forSource = st.sourceIndex ∧ t ∉ st.timeouts) ∧
    TimerInv st' := by
  have key : st'.sourceIndex = st.sourceIndex + 1 ∧
      (∀ t ∈ st'.timeouts, t.forSource = st.sourceIndex) := by
    rcases h with h | h
    · obtain ⟨a1, _, a3, _, _⟩ := update_ok_state eng st st' calls h
      exact ⟨a1, a3⟩
    · obtain ⟨a1, _, a3⟩ := update_errored_state eng st msg st' calls h
      exact ⟨a1, a3⟩
  constructor
  · intro t ht
    refine ⟨key.2 t ht, fun hmem => ?_⟩
    have h1 := hInv t hmem
    have h2 := key.2 t ht
    omega
  · intro t ht
    have h2 := key.2 t ht
    rw [key.1]
    omega

/-- C9 witness: after a second `update()` on the two-MP4 playlist, the timer
armed for item 0 is gone and the only pending timer is armed for item 1. -/
theorem c9_witness :
    (∀ t ∈ plMState2.timeouts, t.forSource = plMState1.sourceIndex ∧
      t ∉ plMState1.timeouts) ∧
    TimerInv plMState2 :=
  c9_outgoing_timer_cannot_refire engNone plMState1 "" plMState2 [⟨"input-1", 1⟩]
    (by unfold TimerInv; decide) (Or.inl (by rfl))

/-- C2 counterexample: for the playlist `[mp4Item100]` (known duration 100 ms,
transition 300 ms) `update()` arms the advance timer with the raw delay
100 - 300 = -200, not the claimed max(100 - 300, 0) = 0. -/
theorem c2_counterexample :
    updateTimeouts (update engNone (initState [mp4Item100] [] [])) = [⟨0, -200⟩] ∧
    ¬ ((-200 : Int) = max ((100 : Int) - 300) 0) := by
  exact ⟨rfl, by decide⟩

/-- C2 as amended: for a current item with a known nonzero duration `d`,
`update()` arms the advance timer with the raw `setTimeout` delay
`d - transitionDuration` — unclamped, so possibly negative; the Node.js
runtime clamps the effective delay to at least 1 ms (exactly 1 ms whenever
`d < transitionDuration`), so the timer still fires and the advance still
happens, effectively immediately.  A known duration of exactly 0 is falsy in
the `if (currentDuration)` guard and arms no timer at all. -/
theorem c2_timer_delay_amended (d t : Int) (hd : d ≠ 0) :
    scheduleAdvanceTimer (some d) t = some (d - t) ∧
    1 ≤ nodeEffectiveDelay (d - t) ∧
    (d < t → nodeEffectiveDelay (d - t) = 1) ∧
    scheduleAdvanceTimer (some 0) t = none := by
  refine ⟨?_, ?_, ?_, rfl⟩
  · simp [scheduleAdvanceTimer, hd]
  · unfold nodeEffectiveDelay
    split <;> omega
  · intro h
    unfold nodeEffectiveDelay
    split <;> omega

/-- C2 witness: duration 100 ms against the default 300 ms transition. -/
theorem c2_witness :
    ((100 : Int) ≠ 0) ∧
    (scheduleAdvanceTimer (some 100) 300 = some (100 - 300) ∧
      1 ≤ nodeEffectiveDelay ((100 : Int) - 300) ∧
      ((100 : Int) < 300 → nodeEffectiveDelay ((100 : Int) - 300) = 1) ∧
      scheduleAdvanceTimer (some 0) 300 = none) :=
  ⟨by decide, c2_timer_delay_amended 100 300 (by decide)⟩

/-- C3: `Playlist.create` calls `precreateListeners()` without awaiting it, so
for the playlist `[srtListenerItem]` the promise returned by `create`
resolves after the listener node creation begins but BEFORE the listener is
registered in the registry — `start()` can run with no listener present.
(The per-port deduplication half of the claim does hold: with two items on
port 5000 exactly one registration occurs.) -/
theorem c3_create_resolves_before_registration :
    createEvents [srtListenerItem] =
      [CreateEv.beginListener .srt 5000, CreateEv.resolveCreate,
        CreateEv.registerListener .srt 5000] ∧
    (createEvents [srtListenerItem, srtListenerItem]).countP
      (fun e => decide (e = CreateEv.registerListener .srt 5000)) = 1 := by
  exact ⟨rfl, rfl⟩

/-- C4: for the playlist `[tsItem, srtCallerItem]`, the first `update()`
creates the current node with id `input-0` and then prewarms the live item at
position 1 — but hands `currentSource` instead of `currentSource + 1` to
`createNode`, so the prewarmed node (subscribe index 1) is also created with
id `input-0`, colliding with the current node instead of the claimed
`input-1`. -/
theorem c4_prewarm_nodeId_collision :
    updateCalls (update engNone (initState [tsItem, srtCallerItem] [] []))
      = [⟨"input-0", 0⟩, ⟨"input-0", 1⟩] ∧
    mkNodeId 1 = "input-1" ∧
    ¬ (("input-0" : String) = "input-1") := by
  exact ⟨rfl, rfl, by decide⟩
